import Mathlib

/-!
Shallow embedding of the BuzzGuard feedback backend
(models/Feedback.js and routes/feedback.js).

Machine strings are modelled by Lean `String` (character-based length, as in
JavaScript for the ASCII inputs used throughout), timestamps by `Int`
(milliseconds since epoch), and the document store by a `List Feedback`.
JavaScript number arithmetic in the statistics aggregator is modelled by exact
rational arithmetic with `round` (Mathlib `round q = ⌊q + 1/2⌋`, which agrees
with `Math.round` and, on the positive values arising here, with `toFixed(1)`).
-/

namespace BuzzGuard

/-- The `status` enum of the Mongoose schema: `['new', 'read', 'responded', 'archived']`. -/
inductive Status where
  | new
  | read
  | responded
  | archived
deriving DecidableEq

/-- The `priority` enum of the Mongoose schema: `['low', 'medium', 'high', 'urgent']`. -/
inductive Priority where
  | low
  | medium
  | high
  | urgent
deriving DecidableEq

/-- A stored feedback document (models/Feedback.js schema, with the
store-assigned `_id` and `createdAt`).  `rating` is the 1-5 star rating,
`createdAt` a millisecond timestamp. -/
structure Feedback where
  id : Nat
  name : String
  email : String
  contactNumber : Option String
  message : String
  rating : Nat
  status : Status
  priority : Priority
  isPublic : Bool
  tags : List String
  ipAddress : Option String
  userAgent : Option String
  createdAt : Int
deriving DecidableEq

/-- JavaScript `s.toLowerCase()`, character by character (the inputs in this
development are ASCII, where the two agree). -/
def jsToLower (s : String) : String :=
  String.mk (s.data.map Char.toLower)

/-- JavaScript-style trim of leading and trailing whitespace (the Mongoose
`trim: true` setter). -/
def jsTrim (s : String) : String :=
  String.mk (((s.data.dropWhile Char.isWhitespace).reverse.dropWhile Char.isWhitespace).reverse)

/-- A `needle.isPrefixOf hay || ...` scan: JavaScript `hay.includes(needle)`
on character lists. -/
def charsInclude (hay needle : List Char) : Bool :=
  match hay with
  | [] => needle.isEmpty
  | _ :: t => needle.isPrefixOf hay || charsInclude t needle

/-- JavaScript `s.includes(sub)`. -/
def strIncludes (s sub : String) : Bool :=
  charsInclude s.toList sub.toList

/-- Worker for `jsSetDedup`: keeps the first occurrence of each element,
skipping elements already seen. -/
def jsSetDedupAux (seen : List String) : List String → List String
  | [] => []
  | a :: t => if a ∈ seen then jsSetDedupAux seen t else a :: jsSetDedupAux (a :: seen) t

/-- JavaScript `[...new Set(l)]`: deduplication keeping first occurrences in
insertion order. -/
def jsSetDedup (l : List String) : List String :=
  jsSetDedupAux [] l

/-- Condition of the first auto-tag rule: the lowercased message contains
"bug", "error" or "issue". -/
def bugCond (msg : String) : Bool :=
  strIncludes (jsToLower msg) "bug" || strIncludes (jsToLower msg) "error" || strIncludes (jsToLower msg) "issue"

/-- Condition of the `feature-request` rule. -/
def featureCond (msg : String) : Bool :=
  strIncludes (jsToLower msg) "feature" || strIncludes (jsToLower msg) "suggestion" ||
    strIncludes (jsToLower msg) "improve"

/-- Condition of the `mobile-app` rule. -/
def mobileCond (msg : String) : Bool :=
  strIncludes (jsToLower msg) "app" || strIncludes (jsToLower msg) "mobile"

/-- Condition of the `hardware` rule. -/
def hardwareCond (msg : String) : Bool :=
  strIncludes (jsToLower msg) "device" || strIncludes (jsToLower msg) "esp32" ||
    strIncludes (jsToLower msg) "hardware"

/-- Condition of the `positive` rule. -/
def positiveCond (msg : String) : Bool :=
  strIncludes (jsToLower msg) "great" || strIncludes (jsToLower msg) "awesome" ||
    strIncludes (jsToLower msg) "love"

/-- Condition of the `negative` rule. -/
def negativeCond (msg : String) : Bool :=
  strIncludes (jsToLower msg) "problem" || strIncludes (jsToLower msg) "difficult" ||
    strIncludes (jsToLower msg) "hate"

/-- The `autoTags` array pushed by the pre-save hook, in push order. -/
def autoTags (msg : String) : List String :=
  (if bugCond msg then ["bug-report"] else []) ++
  (if featureCond msg then ["feature-request"] else []) ++
  (if mobileCond msg then ["mobile-app"] else []) ++
  (if hardwareCond msg then ["hardware"] else []) ++
  (if positiveCond msg then ["positive"] else []) ++
  (if negativeCond msg then ["negative"] else [])

/-- The priority after the hook's two `this.priority = 'high'` assignments:
the bug-report rule assigns `high`, then the negative rule assigns `high`;
otherwise the priority is left unchanged.  Both assignments are unconditional
overwrites of whatever priority the document had. -/
def hookPriority (msg : String) (p : Priority) : Priority :=
  let p1 := if bugCond msg then Priority.high else p
  if negativeCond msg then Priority.high else p1

/-- The `feedbackSchema.pre('save')` middleware: fires only when
`this.isNew && this.message` (a nonempty message is truthy); pushes auto tags
from the lowercased message, escalates priority, and replaces `tags` by
`[...new Set([...this.tags, ...autoTags])]`. -/
def autoTagHook (r : Feedback) (isNew : Bool) : Feedback :=
  if isNew && !r.message.isEmpty then
    { r with
      priority := hookPriority r.message r.priority
      tags := jsSetDedup (r.tags ++ autoTags r.message) }
  else r

/-- An inbound request body for `POST /api/feedback`; `none` models an absent
key. -/
structure Submission where
  name : Option String
  email : Option String
  contactNumber : Option String
  message : Option String
deriving DecidableEq

/-- Split a character list at a separator (JavaScript `s.split(sep)` shape). -/
def splitChars (sep : Char) : List Char → List (List Char)
  | [] => [[]]
  | c :: t =>
    let rest := splitChars sep t
    if c = sep then [] :: rest
    else
      match rest with
      | [] => [[c]]
      | h :: t' => (c :: h) :: t'

/-- Simplified recognizer standing in for `Joi.string().email()`:
local-part `@` dot-separated domain whose top-level label has 2+ characters.
No claim turns on the fine structure of email syntax; this abstraction only
has to accept ordinary addresses such as `john@example.com`. -/
def emailFormatOk (s : String) : Bool :=
  match splitChars '@' s.data with
  | [localPart, domain] =>
    let labels := splitChars '.' domain
    !localPart.isEmpty &&
      localPart.all (fun c => c.isAlphanum || c = '.' || c = '-' || c = '_') &&
      decide (2 ≤ labels.length) &&
      labels.all (fun l => !l.isEmpty && l.all (fun c => c.isAlphanum || c = '-')) &&
      decide (2 ≤ (labels.getLastD []).length)
  | _ => false

/-- First failing rule for the Joi `name` key (`string.min(2).max(100).required()`
with the route's custom messages; a missing key fires Joi's default
`any.required` message). -/
def nameCheck : Option String → Option String
  | none => some "\"name\" is required"
  | some s =>
    if s.isEmpty then some "Name is required"
    else if s.length < 2 then some "Name must be at least 2 characters long"
    else if 100 < s.length then some "Name cannot exceed 100 characters"
    else none

/-- First failing rule for the Joi `email` key (`string.email().required()`). -/
def emailCheck : Option String → Option String
  | none => some "\"email\" is required"
  | some s =>
    if s.isEmpty then some "Email is required"
    else if !emailFormatOk s then some "Please provide a valid email address"
    else none

/-- First failing rule for the Joi `contactNumber` key
(`string.min(10).max(20).required()`). -/
def contactNumberCheck : Option String → Option String
  | none => some "\"contactNumber\" is required"
  | some s =>
    if s.isEmpty then some "Contact number is required"
    else if s.length < 10 then some "Contact number must be at least 10 digits"
    else if 20 < s.length then some "Contact number cannot exceed 20 characters"
    else none

/-- First failing rule for the Joi `message` key (`string.min(10).max(1000).required()`). -/
def messageCheck : Option String → Option String
  | none => some "\"message\" is required"
  | some s =>
    if s.isEmpty then some "Message is required"
    else if s.length < 10 then some "Message must be at least 10 characters long"
    else if 1000 < s.length then some "Message cannot exceed 1000 characters"
    else none

/-- All per-field violations of the schema, in schema key order
(name, email, contactNumber, message): what Joi would report with
`abortEarly: false`. -/
def joiViolationsAll (s : Submission) : List String :=
  (nameCheck s.name).toList ++ (emailCheck s.email).toList ++
    (contactNumberCheck s.contactNumber).toList ++ (messageCheck s.message).toList

/-- Model of `feedbackValidation.validate(req.body)`: the route calls Joi `validate`
with default options, so `abortEarly: true` — validation stops at the first
failing field and `error.details` holds that single violation. -/
def joiValidate (s : Submission) : Option (List String) :=
  match joiViolationsAll s with
  | [] => none
  | e :: _ => some [e]

/-- Outcome of `POST /api/feedback` (HTTP statuses 400, 429, 201, in order). -/
inductive SubmitResult where
  | badRequest (primary : String) (details : List String)
  | duplicate
  | created (record : Feedback)
deriving DecidableEq

/-- Construction of the Mongoose document from the validated payload and the
request metadata, with the schema's setters and defaults applied:
`name`/`message`/`contactNumber` are trimmed, `email` is trimmed and
lowercased, `rating` defaults to 5 (the Joi schema admits no `rating` key,
so a created document always takes the default), `status` defaults to `new`,
`priority` to `medium`, `isPublic` to `true`, `tags` to `[]`. -/
def mkFeedback (id : Nat) (now : Int) (s : Submission) (ip ua : Option String) : Feedback :=
  { id := id
    name := jsTrim (s.name.getD "")
    email := jsToLower (jsTrim (s.email.getD ""))
    contactNumber := some (jsTrim (s.contactNumber.getD ""))
    message := jsTrim (s.message.getD "")
    rating := 5
    status := Status.new
    priority := Priority.medium
    isPublic := true
    tags := []
    ipAddress := ip
    userAgent := ua
    createdAt := now }

/-- The duplicate-guard query of `router.post('/')`:
`findOne({ email: value.email.toLowerCase(), createdAt: { $gte: oneHourAgo } })`
with `oneHourAgo = now - 60*60*1000`. -/
def duplicateExists (store : List Feedback) (now : Int) (submittedEmail : String) : Bool :=
  store.any fun r => r.email == jsToLower submittedEmail && decide (now - 3600000 ≤ r.createdAt)

/-- Model of `router.post('/')`: Joi validation (400 with `error.details[0].message` as
primary text and the mapped details list), then the duplicate guard (429, no
write), then document construction and `save()` (which runs the pre-save
auto-tag hook on the new document).  Returns the HTTP outcome and the store
after the request. -/
def submit (store : List Feedback) (now : Int) (s : Submission) (ip ua : Option String) :
    SubmitResult × List Feedback :=
  match joiValidate s with
  | some details => (SubmitResult.badRequest (details.headD "") details, store)
  | none =>
    if duplicateExists store now (s.email.getD "") then
      (SubmitResult.duplicate, store)
    else
      let fb := autoTagHook (mkFeedback store.length now s ip ua) true
      (SubmitResult.created fb, store ++ [fb])

/-- The snapshot returned by `feedbackSchema.statics.getStats`.
`averageRating` is the one-decimal value (a rational with denominator
dividing 10), `satisfactionPercentage` the integer percentage. -/
structure Stats where
  total : Nat
  newCount : Nat
  read : Nat
  responded : Nat
  highPriority : Nat
  urgent : Nat
  averageRating : ℚ
  satisfactionPercentage : ℤ
  highRatingCount : Nat
deriving DecidableEq

/-- Sum of the `rating` field over the store (the `$sum`/`$avg` aggregation
input). -/
def ratingSum (store : List Feedback) : Nat :=
  (store.map Feedback.rating).sum

/-- Model of `feedbackSchema.statics.getStats`: six `countDocuments` queries plus the
rating aggregation.  The average-rating branch mirrors the JavaScript
truthiness test `ratingStats.length > 0 && ratingStats[0].averageRating`
(the aggregation result is empty iff the store is, and the raw average is
truthy iff it is nonzero); `toFixed(1)` is one-decimal rounding and
`Math.round` is `round`. -/
def getStats (store : List Feedback) : Stats :=
  let total := store.length
  let high := (store.filter fun r => decide (4 ≤ r.rating)).length
  { total := total
    newCount := (store.filter fun r => r.status == Status.new).length
    read := (store.filter fun r => r.status == Status.read).length
    responded := (store.filter fun r => r.status == Status.responded).length
    highPriority := (store.filter fun r => r.priority == Priority.high).length
    urgent := (store.filter fun r => r.priority == Priority.urgent).length
    averageRating :=
      if 0 < total ∧ (ratingSum store : ℚ) / total ≠ 0 then
        (round ((ratingSum store : ℚ) / total * 10) : ℚ) / 10
      else 24 / 5
    satisfactionPercentage :=
      if 0 < total then round ((high : ℚ) / total * 100) else 97
    highRatingCount := high }

/-- One item of a query result after Mongoose field selection: `none` marks a
field absent from the returned document.  `formattedDate`/`timeAgo` virtuals
are derived from `createdAt` and carried by it. -/
structure Projected where
  id : Option Nat
  name : Option String
  email : Option String
  contactNumber : Option String
  message : Option String
  rating : Option Nat
  status : Option Status
  priority : Option Priority
  isPublic : Option Bool
  tags : Option (List String)
  ipAddress : Option String
  userAgent : Option String
  createdAt : Option Int
deriving DecidableEq

/-- Model of `select('name message createdAt formattedDate timeAgo tags priority -_id')`:
the public-only projection of `router.get('/')` — an inclusive projection with
`_id` explicitly excluded. -/
def projectPublic (r : Feedback) : Projected :=
  { id := none
    name := some r.name
    email := none
    contactNumber := none
    message := some r.message
    rating := none
    status := none
    priority := some r.priority
    isPublic := none
    tags := some r.tags
    ipAddress := none
    userAgent := none
    createdAt := some r.createdAt }

/-- Model of `select('name message createdAt formattedDate timeAgo tags priority')`:
the projection of `getPublicFeedback` — inclusive, so Mongoose keeps `_id`
by default. -/
def projectRecent (r : Feedback) : Projected :=
  { projectPublic r with id := some r.id }

/-- Model of `select('-ipAddress -userAgent')`: the non-public-only projection — every
stored field except the two excluded ones. -/
def projectFull (r : Feedback) : Projected :=
  { id := some r.id
    name := some r.name
    email := some r.email
    contactNumber := r.contactNumber
    message := some r.message
    rating := some r.rating
    status := some r.status
    priority := some r.priority
    isPublic := some r.isPublic
    tags := some r.tags
    ipAddress := none
    userAgent := none
    createdAt := some r.createdAt }

/-- Query parameters of `router.get('/')` after parsing: `page`, `limit`,
optional `status` and `priority` exact-match filters, and the `publicOnly`
flag. -/
structure ListQuery where
  page : Nat
  limit : Nat
  status : Option Status
  priority : Option Priority
  publicOnly : Bool
deriving DecidableEq

/-- The Mongo query object built by `router.get('/')`, as a predicate:
`publicOnly` sets `query.isPublic = true` and `query.status = { $ne: 'archived' }`;
a `status` parameter then *overwrites* `query.status` with an exact match,
and a `priority` parameter adds an exact match. -/
def buildQuery (q : ListQuery) (r : Feedback) : Bool :=
  (if q.publicOnly then r.isPublic else true) &&
  (match q.status with
   | some s => r.status == s
   | none => if q.publicOnly then !(r.status == Status.archived) else true) &&
  (match q.priority with
   | some p => r.priority == p
   | none => true)

/-- Model of `sort({ createdAt: -1 })`: records ordered by creation time descending. -/
def sortByCreatedDesc (l : List Feedback) : List Feedback :=
  l.insertionSort fun a b => b.createdAt ≤ a.createdAt

/-- The documents of the requested page, before field selection:
`find(query).sort({createdAt:-1}).skip((page-1)*limit).limit(limit)`. -/
def listPagedRecords (store : List Feedback) (q : ListQuery) : List Feedback :=
  (((sortByCreatedDesc (store.filter (buildQuery q))).drop ((q.page - 1) * q.limit)).take q.limit)

/-- Pagination metadata of the list response. -/
structure Pagination where
  currentPage : Nat
  totalPages : Nat
  totalItems : Nat
  itemsPerPage : Nat
  hasNextPage : Bool
  hasPrevPage : Bool
deriving DecidableEq

/-- Model of `router.get('/')`: filtered, sorted, paged records under the projection
selected by `publicOnly`, plus pagination metadata
(`totalPages = Math.ceil(total / limit)`, here Nat ceiling division). -/
def listPaged (store : List Feedback) (q : ListQuery) : List Projected × Pagination :=
  let total := (store.filter (buildQuery q)).length
  let totalPages := (total + q.limit - 1) / q.limit
  ((listPagedRecords store q).map (if q.publicOnly then projectPublic else projectFull),
   { currentPage := q.page
     totalPages := totalPages
     totalItems := total
     itemsPerPage := q.limit
     hasNextPage := decide (q.page < totalPages)
     hasPrevPage := decide (1 < q.page) })

/-- Model of `feedbackSchema.statics.getPublicFeedback(limit)`:
`find({ isPublic: true, status: { $ne: 'archived' } })`, newest first, capped
at `limit`, with the recent projection (which keeps `_id`). -/
def getPublicFeedback (store : List Feedback) (limit : Nat) : List Projected :=
  ((sortByCreatedDesc
      (store.filter fun r => r.isPublic && !(r.status == Status.archived))).take limit).map
    projectRecent

/-- Outcome of `DELETE /api/feedback/:id` (401, 404, or 200 with the store
after the physical removal). -/
inductive DeleteResult where
  | unauthorized
  | notFound
  | ok (store : List Feedback)
deriving DecidableEq

/-- Model of `findByIdAndDelete(id)`: removes the document with the given id, returning
the remaining store, or `none` when no document matches. -/
def removeById : List Feedback → Nat → Option (List Feedback)
  | [], _ => none
  | r :: t, i => if r.id = i then some t else (removeById t i).map (r :: ·)

/-- Model of `router.delete('/:id')`: the guard `if (adminKey !== process.env.ADMIN_KEY)`
compares the value read from the request (`none` when absent) with the
configured `ADMIN_KEY` (`none` when the environment variable is unset); on
mismatch 401 without touching the store, otherwise `findByIdAndDelete`. -/
def deleteFeedback (store : List Feedback) (id : Nat)
    (adminKey envAdminKey : Option String) : DeleteResult :=
  if adminKey ≠ envAdminKey then DeleteResult.unauthorized
  else
    match removeById store id with
    | none => DeleteResult.notFound
    | some remaining => DeleteResult.ok remaining

/-! Concrete fixtures used by witnesses and counterexamples. -/

/-- A well-formed submission (mixed-case email, 11-character contact number,
30-character message). -/
def subOk : Submission :=
  { name := some "John Doe", email := some "John@Example.com",
    contactNumber := some "09171234567", message := some "I love this great product team" }

/-- Build a store record with the given id, rating, status, priority,
visibility and creation time. -/
def mkRec (i : Nat) (rating : Nat) (st : Status) (pr : Priority) (pub : Bool) (t : Int) :
    Feedback :=
  { id := i, name := "N", email := "n@example.com", contactNumber := none,
    message := "some message here", rating := rating, status := st, priority := pr,
    isPublic := pub, tags := [], ipAddress := none, userAgent := none, createdAt := t }

/-- Five public records with ratings `[5, 5, 4, 3, 2]` (the spec's worked
statistics example). -/
def fiveStore : List Feedback :=
  [mkRec 0 5 Status.new Priority.medium true 0, mkRec 1 5 Status.new Priority.medium true 1,
   mkRec 2 4 Status.new Priority.medium true 2, mkRec 3 3 Status.new Priority.medium true 3,
   mkRec 4 2 Status.new Priority.medium true 4]

/-- A submission violating two fields at once: 1-character name and
5-character message. -/
def subBad2 : Submission :=
  { name := some "A", email := some "john@example.com",
    contactNumber := some "09171234567", message := some "short" }

/-- A submission that is valid except for the absent `contactNumber` key. -/
def subNoContact : Submission :=
  { name := some "John Doe", email := some "john@example.com",
    contactNumber := none, message := some "I love this great product team" }

/-- A new record already at `urgent` priority whose message contains "bug". -/
def urgentBug : Feedback :=
  { mkRec 0 5 Status.new Priority.urgent true 0 with message := "There is a bug in the alarm" }

/-- A new record whose message contains both a bug-keyword and a
positive-keyword. -/
def bugPosRec : Feedback :=
  { mkRec 0 5 Status.new Priority.medium true 0 with
    message := "Great app overall but I found a bug" }

/-- A store holding a single public *archived* record. -/
def archStore : List Feedback :=
  [mkRec 0 5 Status.archived Priority.medium true 0]

/-- The list query `publicOnly=true&status=archived&page=1&limit=10`. -/
def qArchived : ListQuery :=
  { page := 1, limit := 10, status := some Status.archived, priority := none, publicOnly := true }

/-- An existing record whose email matches `subOk`'s normalized email,
created one second before the reference time `1000000000`. -/
def dupStore : List Feedback :=
  [{ mkRec 0 5 Status.new Priority.medium true 999999000 with email := "john@example.com" }]

/-- The list query `publicOnly=true&page=1&limit=10` with no status or
priority filter. -/
def qPublic : ListQuery :=
  { page := 1, limit := 10, status := none, priority := none, publicOnly := true }

/-- The list query `publicOnly=true&page=1&limit=5` with no status or
priority filter. -/
def qPublic5 : ListQuery :=
  { page := 1, limit := 5, status := none, priority := none, publicOnly := true }

/-! Helper lemmas. -/

theorem mem_jsSetDedupAux {x : String} {seen : List String} {l : List String} :
    x ∈ jsSetDedupAux seen l ↔ x ∈ l ∧ x ∉ seen := by
  induction l generalizing seen with
  | nil => simp [jsSetDedupAux]
  | cons a t ih =>
    by_cases ha : a ∈ seen
    · simp only [jsSetDedupAux, if_pos ha, ih, List.mem_cons]
      constructor
      · rintro ⟨hx, hs⟩
        exact ⟨Or.inr hx, hs⟩
      · rintro ⟨rfl | hx, hs⟩
        · exact absurd ha hs
        · exact ⟨hx, hs⟩
    · simp only [jsSetDedupAux, if_neg ha, List.mem_cons, ih]
      constructor
      · rintro (rfl | ⟨hx, hs⟩)
        · exact ⟨Or.inl rfl, ha⟩
        · exact ⟨Or.inr hx, fun hm => hs (Or.inr hm)⟩
      · rintro ⟨rfl | hx, hs⟩
        · exact Or.inl rfl
        · by_cases hxa : x = a
          · exact Or.inl hxa
          · exact Or.inr ⟨hx, fun hm => hm.elim hxa hs⟩

theorem mem_jsSetDedup {x : String} {l : List String} : x ∈ jsSetDedup l ↔ x ∈ l := by
  simp [jsSetDedup, mem_jsSetDedupAux]

theorem autoTagHook_email (r : Feedback) (b : Bool) : (autoTagHook r b).email = r.email := by
  unfold autoTagHook; split <;> rfl

theorem autoTagHook_rating (r : Feedback) (b : Bool) : (autoTagHook r b).rating = r.rating := by
  unfold autoTagHook; split <;> rfl

theorem hookPriority_high (msg : String) (p : Priority)
    (h : bugCond msg = true ∨ negativeCond msg = true) :
    hookPriority msg p = Priority.high := by
  unfold hookPriority
  rcases h with h | h
  · cases hn : negativeCond msg <;> simp [h, hn]
  · simp [h]

theorem autoTagHook_fires (r : Feedback) (hmsg : r.message.isEmpty = false) :
    autoTagHook r true =
      { r with
        priority := hookPriority r.message r.priority
        tags := jsSetDedup (r.tags ++ autoTags r.message) } := by
  unfold autoTagHook
  simp [hmsg]

theorem one_le_ratingSum (store : List Feedback) (h1 : store ≠ [])
    (h : ∀ r ∈ store, 1 ≤ r.rating) : 1 ≤ ratingSum store := by
  cases store with
  | nil => exact absurd rfl h1
  | cons r t =>
    have hr : 1 ≤ r.rating := h r (List.mem_cons_self r t)
    simp only [ratingSum, List.map_cons, List.sum_cons]
    omega

theorem mem_listPagedRecords {store : List Feedback} {q : ListQuery} {r : Feedback}
    (h : r ∈ listPagedRecords store q) : r ∈ store ∧ buildQuery q r = true := by
  have h1 : r ∈ (sortByCreatedDesc (store.filter (buildQuery q))).drop ((q.page - 1) * q.limit) :=
    List.mem_of_mem_take h
  have h2 : r ∈ sortByCreatedDesc (store.filter (buildQuery q)) :=
    List.mem_of_mem_drop h1
  have h3 : r ∈ store.filter (buildQuery q) := by
    have := (List.perm_insertionSort (fun a b => b.createdAt ≤ a.createdAt)
      (store.filter (buildQuery q)))
    exact this.mem_iff.mp h2
  exact ⟨List.mem_of_mem_filter h3, List.of_mem_filter h3⟩

/-! Claim theorems. -/

/-- Claim C3: for every newly created record whose message contains a
bug-keyword, the stored tags include `bug-report` and the priority is `high`;
the rules are independent, so a message containing both a bug-keyword and a
positive-keyword yields both `bug-report` and `positive` with priority
`high`. -/
theorem c3_autoTag_bug_and_positive (r : Feedback) (hmsg : r.message.isEmpty = false) :
    (bugCond r.message = true →
      "bug-report" ∈ (autoTagHook r true).tags ∧ (autoTagHook r true).priority = Priority.high)
  ∧ (bugCond r.message = true → positiveCond r.message = true →
      "bug-report" ∈ (autoTagHook r true).tags ∧ "positive" ∈ (autoTagHook r true).tags ∧
        (autoTagHook r true).priority = Priority.high) := by
  have hfire := autoTagHook_fires r hmsg
  refine ⟨fun hb => ⟨?_, ?_⟩, fun hb hp => ⟨?_, ?_, ?_⟩⟩
  · rw [hfire]; simp [mem_jsSetDedup, autoTags, hb]
  · rw [hfire]; exact hookPriority_high _ _ (Or.inl hb)
  · rw [hfire]; simp [mem_jsSetDedup, autoTags, hb]
  · rw [hfire]; simp [mem_jsSetDedup, autoTags, hb, hp]
  · rw [hfire]; exact hookPriority_high _ _ (Or.inl hb)

/-- Witness for C3 at a concrete record whose message contains both "bug" and
"great". -/
theorem c3_witness :
    "bug-report" ∈ (autoTagHook bugPosRec true).tags ∧
    "positive" ∈ (autoTagHook bugPosRec true).tags ∧
    (autoTagHook bugPosRec true).priority = Priority.high :=
  (c3_autoTag_bug_and_positive bugPosRec (by decide)).2 (by decide) (by decide)

/-- Claim C6, counterexample: a new record already at `urgent` priority whose
message contains "bug" comes out of the auto-tag step at priority `high`, not
`urgent` — the hook's assignment downgrades it. -/
theorem c6_counterexample :
    urgentBug.priority = Priority.urgent ∧
    strIncludes (jsToLower urgentBug.message) "bug" = true ∧
    (autoTagHook urgentBug true).priority = Priority.high ∧
    Priority.high ≠ Priority.urgent := by decide

/-- Claim C6 as amended: the auto-tag escalation sets the priority to `high`
whenever a bug-keyword or a negative-keyword matches, regardless of the prior
priority — in particular an already-`urgent` new record is downgraded to
`high`. -/
theorem c6_amended_escalation (r : Feedback) (hmsg : r.message.isEmpty = false)
    (h : bugCond r.message = true ∨ negativeCond r.message = true) :
    (autoTagHook r true).priority = Priority.high := by
  rw [autoTagHook_fires r hmsg]
  exact hookPriority_high _ _ h

/-- Witness for the amended C6 at the concrete urgent record. -/
theorem c6_witness : (autoTagHook urgentBug true).priority = Priority.high :=
  c6_amended_escalation urgentBug (by decide) (Or.inl (by decide))

/-- Claim C1: over any store of schema-valid records (ratings at least 1),
`getStats` returns `highRatingCount` = number of records with rating ≥ 4;
`averageRating` = the mean rating rounded to one decimal when a record exists
and the fallback 4.8 on an empty store; `satisfactionPercentage` =
`round(highRatingCount / total * 100)` when `total > 0` and the fallback 97
otherwise; and on five records with ratings `[5,5,4,3,2]` the values are
`highRatingCount = 3`, `satisfactionPercentage = 60`, `averageRating = 3.8`. -/
theorem c1_getStats_correct (store : List Feedback) (hrat : ∀ r ∈ store, 1 ≤ r.rating) :
    ((getStats store).highRatingCount = (store.filter fun r => decide (4 ≤ r.rating)).length)
  ∧ (store = [] →
      (getStats store).averageRating = 24 / 5 ∧ (getStats store).satisfactionPercentage = 97)
  ∧ (store ≠ [] →
      (getStats store).averageRating
          = (round ((ratingSum store : ℚ) / store.length * 10) : ℚ) / 10
      ∧ (getStats store).satisfactionPercentage
          = round (((store.filter fun r => decide (4 ≤ r.rating)).length : ℚ)
              / store.length * 100))
  ∧ (getStats fiveStore).highRatingCount = 3
  ∧ (getStats fiveStore).satisfactionPercentage = 60
  ∧ (getStats fiveStore).averageRating = 19 / 5 := by
  refine ⟨rfl, ?_, ?_, ?_, ?_, ?_⟩
  · rintro rfl
    constructor
    · simp only [getStats, ratingSum]
      norm_num
    · simp only [getStats]
      norm_num
  · intro hne
    have hlen : 0 < store.length := List.length_pos.mpr hne
    have hsum : 1 ≤ ratingSum store := one_le_ratingSum store hne hrat
    have hq : (ratingSum store : ℚ) / store.length ≠ 0 :=
      div_ne_zero (Nat.cast_ne_zero.mpr (by omega)) (Nat.cast_ne_zero.mpr (by omega))
    constructor
    · simp only [getStats]
      rw [if_pos ⟨hlen, hq⟩]
    · simp only [getStats]
      rw [if_pos hlen]
  · simp only [getStats, fiveStore, mkRec]
    decide
  · simp only [getStats, fiveStore, mkRec]
    norm_num [round_eq, List.filter]
  · simp only [getStats, ratingSum, fiveStore, mkRec]
    norm_num [round_eq]

/-- Witness for C1 at the worked five-record store. -/
theorem c1_witness :
    (getStats fiveStore).highRatingCount = 3 ∧
    (getStats fiveStore).satisfactionPercentage = 60 ∧
    (getStats fiveStore).averageRating = 19 / 5 :=
  ⟨(c1_getStats_correct fiveStore (by decide)).2.2.2.1,
   (c1_getStats_correct fiveStore (by decide)).2.2.2.2.1,
   (c1_getStats_correct fiveStore (by decide)).2.2.2.2.2⟩

/-- Claim C4, counterexample: on a submission whose name and message both
violate their rules, `validate` (called with Joi's default `abortEarly`)
reports only the name violation — the message violation is absent from the
details, so the response does not collect all offending fields. -/
theorem c4_counterexample :
    nameCheck subBad2.name ≠ none ∧
    messageCheck subBad2.message ≠ none ∧
    joiValidate subBad2 = some ["Name must be at least 2 characters long"] ∧
    "Message must be at least 10 characters long" ∉
      ["Name must be at least 2 characters long"] ∧
    (submit [] 0 subBad2 none none).1 =
      SubmitResult.badRequest "Name must be at least 2 characters long"
        ["Name must be at least 2 characters long"] := by decide

/-- Claim C4 as amended: validation reports only the first violation found (in
schema key order); the primary error text and the detail list both consist of
just that one message, and the submission is rejected with the store left
unchanged. -/
theorem c4_amended_first_violation_only (s : Submission) (errs : List String)
    (h : joiValidate s = some errs) :
    errs = (joiViolationsAll s).take 1 ∧ errs.length = 1 ∧
    ∀ (store : List Feedback) (now : Int) (ip ua : Option String),
      submit store now s ip ua = (SubmitResult.badRequest (errs.headD "") errs, store) := by
  have hv : joiValidate s = some errs := h
  unfold joiValidate at hv
  rcases he : joiViolationsAll s with _ | ⟨e, t⟩
  · rw [he] at hv
    cases hv
  · rw [he] at hv
    have herrs : errs = [e] := ((Option.some.injEq _ _).mp hv).symm
    subst herrs
    refine ⟨by simp, rfl, ?_⟩
    intro store now ip ua
    simp [submit, h]

/-- Witness for the amended C4 at the two-violation submission. -/
theorem c4_witness :
    (["Name must be at least 2 characters long"] : List String)
        = (joiViolationsAll subBad2).take 1 ∧
    submit [] 0 subBad2 none none =
      (SubmitResult.badRequest "Name must be at least 2 characters long"
        ["Name must be at least 2 characters long"], []) :=
  ⟨(c4_amended_first_violation_only subBad2 ["Name must be at least 2 characters long"]
      (by decide)).1,
   (c4_amended_first_violation_only subBad2 ["Name must be at least 2 characters long"]
      (by decide)).2.2 [] 0 none none⟩

/-- Claim C5, counterexample: a submission with valid name, email and message
but no `contactNumber` key is rejected by the route's Joi schema
(`contactNumber` carries `.required()`), and no record is created. -/
theorem c5_counterexample :
    subNoContact.contactNumber = none ∧
    nameCheck subNoContact.name = none ∧
    emailCheck subNoContact.email = none ∧
    messageCheck subNoContact.message = none ∧
    joiValidate subNoContact = some ["\"contactNumber\" is required"] ∧
    (submit [] 0 subNoContact none none).2 = [] := by decide

/-- Claim C5 as amended: `contactNumber` is required by the submission
validation — a submission without it fails validation and creates no record —
and when present it must be 10-20 characters long. -/
theorem c5_amended_contact_required :
    (∀ s : Submission, s.contactNumber = none →
        joiValidate s ≠ none ∧
          ∀ (store : List Feedback) (now : Int) (ip ua : Option String),
            (submit store now s ip ua).2 = store)
  ∧ (∀ (s : Submission) (c : String), s.contactNumber = some c → joiValidate s = none →
        10 ≤ c.length ∧ c.length ≤ 20) := by
  constructor
  · intro s hc
    have hne : joiViolationsAll s ≠ [] := by
      intro h
      simp [joiViolationsAll, hc, contactNumberCheck] at h
    obtain ⟨e, t, he⟩ : ∃ e t, joiViolationsAll s = e :: t := by
      cases hv : joiViolationsAll s with
      | nil => exact absurd hv hne
      | cons e t => exact ⟨e, t, rfl⟩
    have hjv : joiValidate s = some [e] := by
      unfold joiValidate
      rw [he]
    refine ⟨by simp [hjv], ?_⟩
    intro store now ip ua
    simp [submit, hjv]
  · intro s c hc hv
    unfold joiValidate at hv
    rcases hva : joiViolationsAll s with _ | ⟨e, t⟩
    · have hcc : contactNumberCheck s.contactNumber = none := by
        rcases hcase : contactNumberCheck s.contactNumber with _ | m
        · rfl
        · rw [joiViolationsAll, hcase] at hva
          simp at hva
      rw [hc] at hcc
      rw [contactNumberCheck] at hcc
      split_ifs at hcc with h1 h2 h3
      constructor <;> omega
    · rw [hva] at hv
      cases hv

/-- Witness for the amended C5: the contact-free submission is rejected with
no store change, and `subOk`'s 11-character contact number satisfies the
bounds. -/
theorem c5_witness :
    joiValidate subNoContact ≠ none ∧
    (submit [] 0 subNoContact none none).2 = ([] : List Feedback) ∧
    (10 ≤ ("09171234567" : String).length ∧ ("09171234567" : String).length ≤ 20) :=
  ⟨(c5_amended_contact_required.1 subNoContact (by decide)).1,
   (c5_amended_contact_required.1 subNoContact (by decide)).2 [] 0 none none,
   c5_amended_contact_required.2 subOk "09171234567" (by decide) (by decide)⟩

/-- Claim C2: a valid submission whose lowercased email matches an existing
record created within the last 60 minutes is rejected as a duplicate (HTTP
429) with the store unchanged, while a valid submission with a fresh email
(no record with that email at all) is created (HTTP 201) and appended to the
store. -/
theorem c2_duplicate_guard (store : List Feedback) (now : Int) (s : Submission)
    (ip ua : Option String) (e : String)
    (hv : joiValidate s = none) (he : s.email = some e) :
    ((∃ r ∈ store, r.email = jsToLower e ∧ now - 3600000 ≤ r.createdAt) →
        submit store now s ip ua = (SubmitResult.duplicate, store))
  ∧ ((∀ r ∈ store, r.email ≠ jsToLower e) →
        submit store now s ip ua =
          (SubmitResult.created (autoTagHook (mkFeedback store.length now s ip ua) true),
            store ++ [autoTagHook (mkFeedback store.length now s ip ua) true])) := by
  have hget : s.email.getD "" = e := by rw [he]; rfl
  have hdup : duplicateExists store now (s.email.getD "") = true ↔
      ∃ r ∈ store, r.email = jsToLower e ∧ now - 3600000 ≤ r.createdAt := by
    simp [duplicateExists, hget, List.any_eq_true]
  constructor
  · intro hex
    simp [submit, hv, hdup.mpr hex]
  · intro hfresh
    have hnd : duplicateExists store now (s.email.getD "") = false := by
      rw [Bool.eq_false_iff]
      intro htrue
      obtain ⟨r, hr, hre, -⟩ := hdup.mp htrue
      exact hfresh r hr hre
    simp [submit, hv, hnd]

/-- Witness for C2: against a store holding a matching record from one second
earlier the submission is rejected with the store unchanged; against the empty
store it is created. -/
theorem c2_witness :
    submit dupStore 1000000000 subOk none none = (SubmitResult.duplicate, dupStore) ∧
    submit [] 1000000000 subOk none none =
      (SubmitResult.created (autoTagHook (mkFeedback 0 1000000000 subOk none none) true),
        [] ++ [autoTagHook (mkFeedback 0 1000000000 subOk none none) true]) :=
  ⟨(c2_duplicate_guard dupStore 1000000000 subOk none none "John@Example.com"
      (by decide) rfl).1 (by decide),
   (c2_duplicate_guard [] 1000000000 subOk none none "John@Example.com"
      (by decide) rfl).2 (by decide)⟩

/-- Claim C9: for every valid submission that passes the duplicate guard, the
stored record's email is the submitted email trimmed and lowercased, and its
rating is 5 (the schema default — the Joi schema admits no rating key, so
every created record takes it). -/
theorem c9_email_normalized_rating_default (store : List Feedback) (now : Int)
    (s : Submission) (ip ua : Option String) (e : String)
    (hv : joiValidate s = none) (he : s.email = some e)
    (hnd : duplicateExists store now e = false) :
    (submit store now s ip ua).2
        = store ++ [autoTagHook (mkFeedback store.length now s ip ua) true]
    ∧ (autoTagHook (mkFeedback store.length now s ip ua) true).email = jsToLower (jsTrim e)
    ∧ (autoTagHook (mkFeedback store.length now s ip ua) true).rating = 5 := by
  have hget : s.email.getD "" = e := by rw [he]; rfl
  refine ⟨?_, ?_, ?_⟩
  · rw [← hget] at hnd
    simp [submit, hv, hnd]
  · rw [autoTagHook_email]
    simp [mkFeedback, hget]
  · rw [autoTagHook_rating]
    rfl

/-- Witness for C9 at `subOk` (email "John@Example.com") against the empty
store. -/
theorem c9_witness :
    (submit [] 1000000000 subOk none none).2
        = [] ++ [autoTagHook (mkFeedback 0 1000000000 subOk none none) true]
    ∧ (autoTagHook (mkFeedback 0 1000000000 subOk none none) true).email
        = jsToLower (jsTrim "John@Example.com")
    ∧ (autoTagHook (mkFeedback 0 1000000000 subOk none none) true).rating = 5 :=
  c9_email_normalized_rating_default [] 1000000000 subOk none none "John@Example.com"
    (by decide) rfl (by decide)

/-- Claim C7, counterexample: with `publicOnly=true` and the filter
`status=archived`, the status parameter overwrites the `$ne: 'archived'`
condition, so an archived (public) record is returned — the claim's
"status != archived for every combination of filter parameters" fails. -/
theorem c7_counterexample :
    qArchived.publicOnly = true ∧
    mkRec 0 5 Status.archived Priority.medium true 0 ∈ listPagedRecords archStore qArchived ∧
    (mkRec 0 5 Status.archived Priority.medium true 0).status = Status.archived := by decide

/-- Claim C7 as amended: in `publicOnly` mode every returned record has
`isPublic = true`, and its status differs from `archived` unless the status
parameter itself selects `archived` (the parameter overwrites the archived
exclusion); and no returned item carries the id, email, ipAddress or
userAgent fields. -/
theorem c7_amended_public_listing (store : List Feedback) (q : ListQuery)
    (hp : q.publicOnly = true) :
    (∀ r ∈ listPagedRecords store q,
        r.isPublic = true ∧ (q.status = some Status.archived ∨ r.status ≠ Status.archived))
  ∧ (∀ p ∈ (listPaged store q).1,
        p.id = none ∧ p.email = none ∧ p.ipAddress = none ∧ p.userAgent = none) := by
  constructor
  · intro r hr
    have hb := (mem_listPagedRecords hr).2
    rcases hs : q.status with _ | s
    · simp only [buildQuery, hp, hs, if_true, Bool.and_eq_true, Bool.not_eq_true',
        beq_eq_false_iff_ne, ne_eq] at hb
      exact ⟨hb.1.1, Or.inr hb.1.2⟩
    · simp only [buildQuery, hp, hs, if_true, Bool.and_eq_true, beq_iff_eq] at hb
      by_cases hsa : s = Status.archived
      · exact ⟨hb.1.1, Or.inl (by rw [hsa])⟩
      · exact ⟨hb.1.1, Or.inr (by rw [hb.1.2]; exact hsa)⟩
  · intro p hmem
    simp only [listPaged, hp, if_true, List.mem_map] at hmem
    obtain ⟨r, -, rfl⟩ := hmem
    exact ⟨rfl, rfl, rfl, rfl⟩

/-- Witness for the amended C7: the newest record of the five-record store is
public and unarchived, and its projected item hides the sensitive fields. -/
theorem c7_witness :
    ((mkRec 4 2 Status.new Priority.medium true 4).isPublic = true ∧
      (qPublic.status = some Status.archived ∨
        (mkRec 4 2 Status.new Priority.medium true 4).status ≠ Status.archived)) ∧
    ((projectPublic (mkRec 4 2 Status.new Priority.medium true 4)).id = none ∧
      (projectPublic (mkRec 4 2 Status.new Priority.medium true 4)).email = none ∧
      (projectPublic (mkRec 4 2 Status.new Priority.medium true 4)).ipAddress = none ∧
      (projectPublic (mkRec 4 2 Status.new Priority.medium true 4)).userAgent = none) :=
  ⟨(c7_amended_public_listing fiveStore qPublic rfl).1 _ (by decide),
   (c7_amended_public_listing fiveStore qPublic rfl).2 _ (by decide)⟩

/-- Claim C8, counterexample: on the five-record store, `getPublicFeedback 5`
and `listPaged` with `publicOnly=true`, page 1, pageSize 5 do not return the
same items — the recent items carry the record id (the `select` of
`getPublicFeedback` lacks `-_id`), the paged items do not. -/
theorem c8_counterexample :
    getPublicFeedback fiveStore 5 ≠ (listPaged fiveStore qPublic5).1 ∧
    (getPublicFeedback fiveStore 5).map Projected.id
      = [some 4, some 3, some 2, some 1, some 0] ∧
    ((listPaged fiveStore qPublic5).1).map Projected.id
      = [none, none, none, none, none] := by decide

/-- Claim C8 as amended: `getPublicFeedback limit` returns exactly the items
of `listPaged` with `publicOnly=true`, page 1, pageSize `limit` — same
records, same order, same fields — except that each item additionally carries
the record id. -/
theorem c8_amended_recent_vs_listPaged (store : List Feedback) (limit : Nat) :
    (getPublicFeedback store limit).map (fun p => { p with id := none })
      = (listPaged store (⟨1, limit, none, none, true⟩ : ListQuery)).1
  ∧ (getPublicFeedback store limit).map Projected.id
      = (listPagedRecords store (⟨1, limit, none, none, true⟩ : ListQuery)).map
          (fun r => some r.id) := by
  have hfilter : store.filter (buildQuery (⟨1, limit, none, none, true⟩ : ListQuery))
      = store.filter (fun r => r.isPublic && !(r.status == Status.archived)) := by
    apply List.filter_congr
    intro r _
    simp [buildQuery]
  have h1 : ((fun p => { p with id := none }) ∘ projectRecent) = projectPublic :=
    funext fun r => rfl
  have h2 : (Projected.id ∘ projectRecent) = (fun r : Feedback => some r.id) :=
    funext fun r => rfl
  constructor
  · simp only [listPaged, listPagedRecords, getPublicFeedback, hfilter, List.map_map]
    norm_num
    rw [h1]
  · simp only [listPagedRecords, getPublicFeedback, hfilter, List.map_map]
    norm_num
    rw [h2]

/-- Claim C10: the delete route raises Unauthorized exactly when the presented
adminKey value differs from the configured ADMIN_KEY value; with both absent
(`ADMIN_KEY` unset, no adminKey presented) the check passes and the deletion
is attempted. -/
theorem c10_adminKey_check (store : List Feedback) (id : Nat)
    (adminKey envAdminKey : Option String) :
    (deleteFeedback store id adminKey envAdminKey = DeleteResult.unauthorized ↔
        adminKey ≠ envAdminKey)
  ∧ deleteFeedback store id none none =
      (match removeById store id with
        | none => DeleteResult.notFound
        | some remaining => DeleteResult.ok remaining) := by
  refine ⟨⟨fun h => ?_, fun h => by simp [deleteFeedback, h]⟩, ?_⟩
  · by_contra heq
    rw [deleteFeedback, if_neg (by simp [heq])] at h
    rcases hrm : removeById store id with _ | remaining <;> rw [hrm] at h <;>
      exact DeleteResult.noConfusion h
  · simp [deleteFeedback]

/-- Witness for C10: a wrong key against an unset ADMIN_KEY is unauthorized
iff it differs (it does), and with both absent the deletion on the empty
store is attempted and reports not-found. -/
theorem c10_witness :
    (deleteFeedback [] 0 (some "k") none = DeleteResult.unauthorized ↔
        (some "k" : Option String) ≠ none)
  ∧ deleteFeedback [] 0 none none = DeleteResult.notFound := by
  refine ⟨(c10_adminKey_check [] 0 (some "k") none).1, ?_⟩
  have h := (c10_adminKey_check [] 0 none none).2
  simpa using h

end BuzzGuard
